import Mathlib

/-!
Shallow embedding of the format-resolution and authentication pipeline of the
yt-dlp extractor modules under `src/yt_dlp/extractor/` (vrt.py, iprima.py,
videoken.py, mojevideo.py), together with theorems settling the specification
claims about them.

Conventions of the embedding:
* Python dict-backed records become Lean structures; fields that may be absent
  (`dict.get`) become `Option`.
* Python string truthiness (`if s:`) becomes `s ≠ ""`; `None`-or-falsy checks
  on optional strings are spelled out per call site.
* String operations are implemented structurally over `List Char` (ASCII
  scope, which covers the constant strings the embedded code compares
  against), so that every definition evaluates by kernel reduction.
* The external manifest-expansion capabilities (`_extract_m3u8_formats...`,
  `_extract_mpd_formats...`, …) are out-of-scope collaborators per the spec
  and are passed in as function parameters.
* Generators are modelled as functions returning the list of yielded values
  (paired, where a claim needs it, with a fetch count or a terminating error).
-/

namespace YtDlp

/-! ### String primitives (structural models of Python `str` operations) -/

/-- Python `str.strip()` (no argument): remove leading and trailing
whitespace. -/
def pyStrip (s : String) : String :=
  ⟨((s.data.dropWhile Char.isWhitespace).reverse.dropWhile Char.isWhitespace).reverse⟩

/-- Test whether `a` is a prefix of `b` (model of regex anchor / `startswith`). -/
def strStarts (a b : String) : Bool :=
  List.isPrefixOf a.data b.data

/-- Test whether `pat` occurs as a contiguous substring of `s`
(Python `pat in s`). -/
def strIn (pat s : String) : Bool :=
  go pat.data s.data
where
  go (p : List Char) : List Char → Bool
    | [] => p.isEmpty
    | c :: rest => List.isPrefixOf p (c :: rest) || go p rest

/-- Split a character list at every occurrence of separator `sep`
(Python `str.split(sep)` for a one-character separator: always returns at
least one piece, empty pieces preserved). -/
def splitChars (sep : Char) : List Char → List (List Char)
  | [] => [[]]
  | c :: rest =>
      let r := splitChars sep rest
      if c = sep then [] :: r
      else
        match r with
        | [] => [[c]]
        | piece :: pieces => (c :: piece) :: pieces

/-- Python `s.split(sep)` for a one-character separator. -/
def pySplit (s : String) (sep : Char) : List String :=
  (splitChars sep s.data).map (fun l => ⟨l⟩)

/-- ASCII upper-casing of one character (scope of Python `str.upper()` on the
type strings the embedded code handles). -/
def chUpper (c : Char) : Char :=
  if 'a' ≤ c ∧ c ≤ 'z' then Char.ofNat (c.toNat - 32) else c

/-- Python `str.upper()` (ASCII scope). -/
def pyUpper (s : String) : String :=
  ⟨s.data.map chUpper⟩

/-- Python `str.lstrip(chars)`: remove leading characters belonging to the
character set `cs`. -/
def pyLstrip (s : String) (cs : List Char) : String :=
  ⟨s.data.dropWhile (fun c => cs.contains c)⟩

/-- Python `str.replace(pat, "")` for a one-character pattern: drop every
occurrence of the character. -/
def pyDropChar (s : String) (c : Char) : String :=
  ⟨s.data.filter (fun x => x ≠ c)⟩

/-- Test whether `c` occurs in `s` (Python `c in s` for one character). -/
def chIn (c : Char) (s : String) : Bool :=
  s.data.contains c

/-! ### Modelled framework utilities

These helpers live in the framework (`yt_dlp/utils.py`, `urllib`), outside
`src/`; they are modelled from the spec's description of their role, at the
fidelity the embedded call sites rely on. -/

/-- URL schemes accepted by the framework URL validator: the alternatives of
its anchor regex `(?:https?|rt(?:m(?:pt?[es]?|fp)|sp[su]?)|mms|ftps?)`. -/
def urlSchemes : List String :=
  ["http", "https", "rtmp", "rtmpe", "rtmps", "rtmpt", "rtmpte", "rtmpts",
   "rtmfp", "rtsp", "rtsps", "rtspu", "mms", "ftp", "ftps"]

/-- Modelled from the spec: the framework URL validator (`utils.url_or_none`,
not under `src/`), deciding "non-empty resolvable URL": strips whitespace and
accepts only strings starting with an optional recognized scheme plus `:`,
followed by `//`. -/
def url_or_none (u : String) : Option String :=
  let s := pyStrip u
  if strStarts "//" s || urlSchemes.any (fun sch => strStarts (sch ++ "://") s)
  then some s else none

/-- Extensions recognized by the framework beside purely alphanumeric guesses
(`KNOWN_EXTENSIONS`; the manifest and common media extensions). -/
def KNOWN_EXTENSIONS : List String :=
  ["mp4", "m4a", "m4v", "webm", "mkv", "flv", "avi", "mov", "wmv", "ogg",
   "ogv", "oga", "opus", "mp3", "aac", "wav", "flac", "ts", "3gp",
   "f4f", "f4m", "m3u8", "smil", "mpd", "ism", "ismv", "isma"]

/-- Modelled from the spec: the framework extension sniffer
(`utils.determine_ext`, not under `src/`), used for "URL file-extension
inference": the part after the last `.` of the URL (query string removed),
accepted when purely alphanumeric or (after stripping trailing `/`) a known
media/manifest extension; otherwise the default `"unknown_video"`. -/
def determine_ext (url : Option String) : String :=
  match url with
  | none => "unknown_video"
  | some u =>
      if !chIn '.' u then "unknown_video"
      else
        let beforeQuery := (pySplit u '?').headD ""
        let guess := (pySplit beforeQuery '.').getLastD ""
        if guess ≠ "" ∧ guess.data.all (fun c => c.isAlpha ∨ c.isDigit) then guess
        else
          let stripped : String := ⟨(guess.data.reverse.dropWhile (· = '/')).reverse⟩
          if KNOWN_EXTENSIONS.contains stripped then stripped
          else "unknown_video"

/-- Modelled from the spec: the network-locality part of Python
`urllib.parse.urlparse(u).netloc` for http(s)/protocol-relative URLs: after
an optional `scheme:`, a `//` introduces the host part, which extends to the
next `/`, `?` or `#`; URLs without `//` have an empty netloc (`urlparse`
coerces `None` to the empty string). -/
def urlNetloc (u : Option String) : String :=
  let cs := (u.getD "").data
  let schemeLen := (cs.takeWhile (fun c => c.isAlpha ∨ c.isDigit ∨ c = '+' ∨ c = '-' ∨ c = '.')).length
  let rest := if cs.drop schemeLen |>.head? |>.any (· = ':') then cs.drop (schemeLen + 1) else cs
  match rest with
  | '/' :: '/' :: host => ⟨host.takeWhile (fun c => c ≠ '/' ∧ c ≠ '?' ∧ c ≠ '#')⟩
  | _ => ""

/-- Modelled from the spec: the framework query-merging helper
(`utils.update_url_query`, not under `src/`): returns the URL with the given
query parameters appended (claims never inspect the encoded result, so no
percent-encoding is modelled). -/
def update_url_query (u : String) (q : List (String × String)) : String :=
  u ++ (if chIn '?' u then "&" else "?")
    ++ String.intercalate "&" (q.map fun p => p.1 ++ "=" ++ p.2)

/-! ### Subtitle dictionaries -/

/-- One playable variant as produced by the pipeline (`FormatVariant` of the
spec): the fields the embedded code reads or writes. -/
structure FormatVariant where
  format_id : String
  url : String
  language : Option String := none
  deriving Repr, DecidableEq

/-- One subtitle track: the embedded code only carries its URL. -/
structure SubtitleTrack where
  url : String
  deriving Repr, DecidableEq

/-- Subtitle dictionary `{lang -> [SubtitleTrack]}`, as an association list in
insertion order (Python dicts preserve insertion order). -/
abbrev Subtitles := List (String × List SubtitleTrack)

/-- Lookup of a language key in a subtitle dictionary (missing key = `[]`). -/
def subLookup (subs : Subtitles) (lang : String) : List SubtitleTrack :=
  match subs with
  | [] => []
  | (l, ts) :: rest => if l = lang then ts else subLookup rest lang

/-- Model of `subs.setdefault(lang, []).extend(tracks)`: append `tracks` to
the entry of `lang`, creating the entry at the end of the dict when absent. -/
def subAppend (subs : Subtitles) (lang : String) (tracks : List SubtitleTrack) :
    Subtitles :=
  match subs with
  | [] => [(lang, tracks)]
  | (l, ts) :: rest =>
      if l = lang then (l, ts ++ tracks) :: rest
      else (l, ts) :: subAppend rest lang tracks

/-- Modelled from the spec: the framework subtitle-merge helper
(`InfoExtractor._merge_subtitles`, not under `src/`) — "Merge subtitle tracks
discovered during expansion …; de-duplicate by URL": each language's new
tracks are appended to the target entry, dropping tracks whose URL is already
present there. -/
def merge_subtitles (new : Subtitles) (target : Subtitles) : Subtitles :=
  new.foldl
    (fun acc p =>
      subAppend acc p.1 (p.2.filter (fun t => !(subLookup acc p.1).any (·.url = t.url))))
    target

/-! ### VRT: `VRTBaseIE._extract_formats_and_subtitles` (src/yt_dlp/extractor/vrt.py:29-76) -/

namespace VRT

/-- One entry of the API response's `targetUrls` list: a stream descriptor
`{type, url}`. -/
structure TargetUrl where
  type : String
  url : String
  deriving Repr, DecidableEq

/-- One entry of the API response's `subtitleUrls` list. The data may carry a
declared language; the embedded code never reads it. -/
structure SubtitleUrl where
  url : String
  type : String
  language : Option String := none
  deriving Repr, DecidableEq

/-- The fields of the media-API response the classifier reads (`drm` only
triggers an informational report, which is not modelled). -/
structure StreamData where
  drm : Bool := false
  targetUrls : List TargetUrl
  subtitleUrls : List SubtitleUrl
  deriving Repr

/-- The external manifest-expansion collaborators, as called by the
classifier: each takes the manifest URL and the format-id tag passed at the
call site and returns expanded variants (plus discovered subtitles where the
call site requests them). -/
structure Expanders where
  m3u8 : String → String → List FormatVariant × Subtitles
  f4m : String → String → List FormatVariant
  mpd : String → String → List FormatVariant × Subtitles
  ism : String → String → List FormatVariant × Subtitles

/-- One iteration of the loop body of
`VRTBaseIE._extract_formats_and_subtitles` over a `targetUrls` entry:
dispatch on the upper-cased declared type, extending the format list and
merging discovered subtitles into the accumulator. -/
def classify_step (E : Expanders) (acc : List FormatVariant × Subtitles)
    (target : TargetUrl) : List FormatVariant × Subtitles :=
  let formats := acc.1
  let subtitles := acc.2
  let format_type := pyUpper target.type
  let format_url := target.url
  if format_type = "HLS" ∨ format_type = "HLS_AES" then
    let fs := E.m3u8 format_url format_type
    (formats ++ fs.1, merge_subtitles fs.2 subtitles)
  else if format_type = "HDS" then
    (formats ++ E.f4m format_url format_type, subtitles)
  else if format_type = "MPEG_DASH" then
    let fs := E.mpd format_url format_type
    (formats ++ fs.1, merge_subtitles fs.2 subtitles)
  else if format_type = "HSS" then
    let fs := E.ism format_url "mss"
    (formats ++ fs.1, merge_subtitles fs.2 subtitles)
  else
    (formats ++ [{ format_id := format_type, url := format_url }], subtitles)

/-- The `traverse_obj` filter over `targetUrls`:
`lambda _, v: url_or_none(v['url']) and v['type']`. -/
def valid_target (t : TargetUrl) : Bool :=
  (url_or_none t.url).isSome && t.type ≠ ""

/-- Embedding of `VRTBaseIE._extract_formats_and_subtitles`: iterate the
`targetUrls` entries that pass the `traverse_obj` filter, dispatch on the
upper-cased type, then key every `CLOSED` entry of `subtitleUrls` with a
truthy URL under `'nl'`. -/
def extract_formats_and_subtitles (E : Expanders) (data : StreamData) :
    List FormatVariant × Subtitles :=
  let fs := (data.targetUrls.filter valid_target).foldl (classify_step E) ([], [])
  let subtitles :=
    (data.subtitleUrls.filter (fun s => s.url ≠ "" && s.type = "CLOSED")).foldl
      (fun subs s => subAppend subs "nl" [{ url := s.url }]) fs.2
  (fs.1, subtitles)

/-- The formats one classified descriptor contributes, as a function of its
declared type alone: the formats component of `classify_step` on an empty
accumulator. -/
def target_formats (E : Expanders) (t : TargetUrl) : List FormatVariant :=
  let format_type := pyUpper t.type
  if format_type = "HLS" ∨ format_type = "HLS_AES" then (E.m3u8 t.url format_type).1
  else if format_type = "HDS" then E.f4m t.url format_type
  else if format_type = "MPEG_DASH" then (E.mpd t.url format_type).1
  else if format_type = "HSS" then (E.ism t.url "mss").1
  else [{ format_id := format_type, url := t.url }]

end VRT

/-! ### Radio1Be: `Radio1BeIE._extract_video_entries` (src/yt_dlp/extractor/vrt.py:500-516) -/

namespace Radio1

/-- Item-fatal conditions that `_call_api` / format extraction can raise while
resolving one media reference (the spec's `AUTH_FAILED`, `MALFORMED_RESPONSE`,
transport errors). -/
inductive ItemError
  | authFailed
  | malformedResponse
  | networkError
  deriving Repr, DecidableEq

/-- Embedding of the generator `Radio1BeIE._extract_video_entries`, driven by
a per-item resolver (`_call_api` + `_extract_formats_and_subtitles` + entry
assembly, of result type `α`). The generator body has no `try/except`: items
are yielded in order until a resolver exception propagates, which terminates
the iteration; the error and the items yielded before it are returned. -/
def extract_video_entries (resolve : String → Except ItemError α) :
    List String → List α × Option ItemError
  | [] => ([], none)
  | r :: rest =>
      match resolve r with
      | .error e => ([], some e)
      | .ok entry =>
          let t := extract_video_entries resolve rest
          (entry :: t.1, t.2)

end Radio1

/-! ### iPrima: `IPrimaIE` (src/yt_dlp/extractor/iprima.py:16-130) -/

namespace IPrima

/-- Uncaught Python exception classes relevant to the login code-parsing
block. -/
inductive PyError
  | indexError
  | keyError
  | valueError
  deriving Repr, DecidableEq

/-- Embedding of the redirect-code parsing inside `IPrimaIE._login`
(iprima.py:45-49):
`params = dict(map(lambda x: x.split('='), url.split('?')[1].split('&')))`,
then `params['code']`. Taking `[1]` of a query-less URL raises `IndexError`;
a key-value piece not splitting into exactly two parts makes the `dict`
constructor raise `ValueError`; a query without a `code` key raises
`KeyError` at the lookup (duplicate keys: last wins). -/
def parse_redirect_code (u : String) : Except PyError String :=
  match pySplit u '?' with
  | _ :: q :: _ =>
      let pieces := (pySplit q '&').map (fun kv => pySplit kv '=')
      if pieces.all (fun p => p.length = 2) then
        match (pieces.filterMap
            (fun p => match p with | [k, v] => some (k, v) | _ => none)).reverse.find?
            (fun p => p.1 = "code") with
        | some kv => .ok kv.2
        | none => .error .keyError
      else .error .valueError
  | _ => .error .indexError

/-- Outcome of `IPrimaIE._login`. Only `IndexError` is caught by the
`except (IndexError)` clause (iprima.py:48); any other exception escapes
`_login` uncaught. -/
inductive LoginResult
  | loginRequired                 -- raise_login_required
  | authFailed                    -- ExtractorError 'Login failed (invalid credentials?)'
  | tokenFailed                   -- ExtractorError 'Getting token failed'
  | pythonError (e : PyError)     -- uncaught exception escaping _login
  | success (access_token : String)
  deriving Repr, DecidableEq

/-- Environment of one `_login` run: configured credentials, the
`_LOGIN_REQUIRED` class flag (`True` on `IPrimaIE`), the final URL of the
credentials POST (`login_handle.geturl()`), and the `access_token` field of
the token-endpoint JSON (none when the field is absent). -/
structure LoginEnv where
  username : Option String
  password : Option String
  login_required : Bool
  redirect_url : String
  access_token_field : Option String
  deriving Repr, DecidableEq

/-- Embedding of `IPrimaIE._login` (iprima.py:25-66), paired with the number
of network calls performed: the credentials check happens before any call;
then the login-page GET and the credentials POST (2 calls) precede the
redirect-code parsing, and the token POST (a 3rd call) happens only when a
code was parsed. -/
def login (env : LoginEnv) : LoginResult × Nat :=
  if (env.username = none ∨ env.password = none) ∧ env.login_required = true then
    (.loginRequired, 0)
  else
    match parse_redirect_code env.redirect_url with
    | .error .indexError => (.authFailed, 2)
    | .error e => (.pythonError e, 2)
    | .ok _ =>
        match env.access_token_field with
        | none => (.tokenFailed, 3)
        | some tok => (.success tok, 3)

/-- Outcome of `IPrimaIE._raise_access_error`. -/
inductive AccessOutcome
  | geoRestricted (countries : List String)  -- raise_geo_restricted(countries=...)
  | forbidden                                -- ExtractorError 'Access to stream infos forbidden'
  | ok                                       -- no access error raised
  deriving Repr, DecidableEq

/-- Embedding of `IPrimaIE._raise_access_error` (iprima.py:68-72): the
`errorCode` field of the media-API body maps `'PLAY_GEOIP_DENIED'` to a
geo-restriction naming `['CZ']`, any other non-null code to the generic
forbidden error, and null/absent to no error. -/
def raise_access_error (error_code : Option String) : AccessOutcome :=
  if error_code = some "PLAY_GEOIP_DENIED" then .geoRestricted ["CZ"]
  else if error_code ≠ none then .forbidden
  else .ok

/-- One entry of the media-API response's `streamInfos` list. -/
structure StreamInfo where
  type : Option String
  url : Option String
  deriving Repr, DecidableEq

/-- Embedding of the manifest loop of `IPrimaIE._real_extract`
(iprima.py:103-114): HLS expansion when the declared type is `'HLS'` or the
URL extension is `m3u8`, DASH expansion when the type is `'DASH'` or the
extension is `mpd`, nothing otherwise. The expanders receive the (possibly
absent) manifest URL as the call site passes it. -/
def stream_formats (m3u8 : Option String → List FormatVariant)
    (mpd : Option String → List FormatVariant)
    (stream_infos : List StreamInfo) : List FormatVariant :=
  stream_infos.foldl
    (fun formats manifest =>
      let manifest_type := manifest.type
      let manifest_url := manifest.url
      let ext := determine_ext manifest_url
      if manifest_type = some "HLS" ∨ ext = "m3u8" then
        formats ++ m3u8 manifest_url
      else if manifest_type = some "DASH" ∨ ext = "mpd" then
        formats ++ mpd manifest_url
      else formats)
    []

end IPrima

/-! ### iPrima CNN: `IPrimaCNNIE._real_extract.extract_formats` (src/yt_dlp/extractor/iprima.py:178-193) -/

namespace IPrimaCNN

/-- Embedding of the closure `extract_formats(format_url, format_key, lang)`:
the list of formats the call appends to the enclosing `formats` accumulator.
On the HLS branch (`format_key == 'hls' or ext == 'm3u8'`) the m3u8 expansion
runs and, when `lang` is truthy, each new variant without a truthy language
gets `lang`. On the DASH branch (`format_key == 'dash' or ext == 'mpd'`) the
source executes a bare `return` — the `_extract_mpd_formats` call below it is
unreachable, so the `mpd` collaborator is never invoked and nothing is
appended. Any other track appends nothing (`new_formats` stays `[]`). -/
def extract_formats (m3u8 : String → List FormatVariant)
    ( _mpd : String → List FormatVariant)
    (format_url : String) (format_key : Option String) (lang : Option String) :
    List FormatVariant :=
  let ext := determine_ext (some format_url)
  if format_key = some "hls" ∨ ext = "m3u8" then
    let new_formats := m3u8 format_url
    if lang.getD "" ≠ "" then
      new_formats.map (fun f =>
        if f.language = none ∨ f.language = some "" then { f with language := lang }
        else f)
    else new_formats
  else if format_key = some "dash" ∨ ext = "mpd" then
    []
  else
    []

end IPrimaCNN

/-! ### VideoKen: `VideoKenBaseIE` / `VideoKenCategoryIE` (src/yt_dlp/extractor/videoken.py) -/

namespace VideoKen

/-- One entry of the `videos` list of a listing response: the fields
`_extract_videos` reads. -/
structure Video where
  youtube_id : Option String
  type : Option String := none
  embed_url : Option String := none
  deriving Repr, DecidableEq

/-- A delegation reference produced by `self.url_result(video_url, ie_key,
video_id)`. -/
structure UrlResult where
  url : String
  ie_key : Option String
  video_id : String
  deriving Repr, DecidableEq

/-- Embedding of `VideoKenBaseIE._create_slideslive_url`
(videoken.py:35-45): rebuild the embed URL from the video id when the given
URL is falsy or a sign-in redirect, then append the embed query parameters
when the referer is a valid URL. `str.lstrip("slideslive-")` strips the
character set of that string. -/
def create_slideslive_url (video_url : Option String) (video_id : String)
    (referer : String) : Option String :=
  if video_url.getD "" = "" ∧ video_id = "" then none
  else
    let vu :=
      if video_url.getD "" = "" ∨ strIn "embed/sign-in" (video_url.getD "") then
        "https://slideslive.com/embed/"
          ++ pyLstrip video_id ['s', 'l', 'i', 'd', 'e', 'v', '-']
      else video_url.getD ""
    if (url_or_none referer).isSome then
      some (update_url_query vu
        [("embed_parent_url", referer),
         ("embed_container_origin", "https://" ++ urlNetloc (some referer))])
    else some vu

/-- One iteration of the generator `VideoKenBaseIE._extract_videos`
(videoken.py:48-63): `none` models `continue` (item skipped), `some` the
yielded `url_result`. Items without a truthy `youtube_id` are skipped;
`type == 'youtube'` items delegate to the Youtube extractor by id; otherwise
the `embed_url` is used (routed through `_create_slideslive_url` when its
netloc is `slideslive.com`, `urlparse` coercing an absent URL to `""`), and
items left without a truthy URL are skipped. -/
def video_entry (video : Video) (url : String) : Option UrlResult :=
  let video_id := video.youtube_id.getD ""
  if video_id = "" then none
  else if video.type = some "youtube" then
    some { url := video_id, ie_key := some "Youtube", video_id := video_id }
  else
    let r :=
      if urlNetloc video.embed_url = "slideslive.com" then
        (create_slideslive_url video.embed_url video_id url, some "SlidesLive")
      else (video.embed_url, (none : Option String))
    match r.1 with
    | none => none
    | some vurl =>
        if vurl = "" then none
        else some { url := vurl, ie_key := r.2, video_id := video_id }

/-- Embedding of the generator `VideoKenBaseIE._extract_videos`
(videoken.py:47-63): the items of the `videos` list, in order, each skipped
or yielded per `video_entry`. -/
def extract_videos (videos : List Video) (url : String) : List UrlResult :=
  videos.filterMap (fun v => video_entry v url)

/-- The fields of one category-listing response `VideoKenCategoryIE._entries`
reads: the `is_last_page` end-of-data signal (absent when the page response
lacks it, e.g. the `or {}` fallback of a failed fetch) and the items. -/
structure ListingPage where
  is_last_page : Option Bool
  videos : List Video
  deriving Repr

/-- Embedding of the generator `VideoKenCategoryIE._entries`
(videoken.py:264-272): starting at page 1, fetch a page, stop (yielding
nothing further) when `is_last_page` is absent, otherwise yield the page's
items and stop after the page that set `is_last_page`. Returns the yielded
items and the number of page fetches performed. The `itertools.count` loop is
given explicit fuel; every claim supplies enough fuel to cover the run. -/
def category_entries (fetch : Nat → ListingPage) (url : String) :
    Nat → Nat → List UrlResult × Nat
  | 0, _ => ([], 0)
  | fuel + 1, page =>
      let videos := fetch page
      match videos.is_last_page with
      | none => ([], 1)
      | some last =>
          if last then (extract_videos videos.videos url, 1)
          else
            let r := category_entries fetch url fuel (page + 1)
            (extract_videos videos.videos url ++ r.1, r.2 + 1)

end VideoKen

/-! ### Mojevideo: `MojevideoIE._real_extract` (src/yt_dlp/extractor/mojevideo.py:10-27) -/

namespace Mojevideo

/-- Embedding of `MojevideoIE._real_extract` after the three id patterns
matched: `vId`, `vEx`, `vHashRaw` are the captured groups (the `vHash` group
is post-processed by `.split(",")[0].replace("'", "")`). `info` starts empty,
`video_url` is assigned the empty string, the `if video_url:` guard never
fires, so `if not info:` always raises `ExtractorError('No videos found on
webpage')`. -/
def real_extract (url _vId _vEx vHashRaw : String) :
    Except String (List (String × String)) :=
  let _vHash := pyDropChar ((pySplit vHashRaw ',').headD "") '\''
  let info : List (String × String) := []
  let video_url := ""
  let info := if video_url ≠ "" then [(url, video_url)] else info
  if info = [] then .error "No videos found on webpage"
  else .ok info

end Mojevideo

end YtDlp

open YtDlp

/-! ## Helper lemmas -/

/-- A string accepted by the URL validator is non-empty. -/
theorem url_or_none_ne_empty {u : String} (h : (url_or_none u).isSome = true) :
    u ≠ "" := fun he => by rw [he] at h; exact absurd h (by decide)

/-- The formats component of one classifier iteration appends exactly the
formats the descriptor's classification contributes. -/
theorem classify_step_formats (E : VRT.Expanders)
    (acc : List FormatVariant × Subtitles) (t : VRT.TargetUrl) :
    (VRT.classify_step E acc t).1 = acc.1 ++ VRT.target_formats E t := by
  simp only [VRT.classify_step, VRT.target_formats]
  split_ifs <;> rfl

/-- The formats component of the classifier loop is the concatenation of the
per-descriptor contributions. -/
theorem foldl_classify_formats (E : VRT.Expanders) :
    ∀ (ts : List VRT.TargetUrl) (acc : List FormatVariant × Subtitles),
      (ts.foldl (VRT.classify_step E) acc).1
        = acc.1 ++ (ts.map (VRT.target_formats E)).flatten := by
  intro ts
  induction ts with
  | nil => intro acc; simp
  | cons t ts ih =>
      intro acc
      simp only [List.foldl_cons, List.map_cons, List.flatten_cons]
      rw [ih, classify_step_formats, List.append_assoc]

/-- The final format list of the VRT classifier is the concatenation of the
per-descriptor contributions over the valid descriptors. -/
theorem extract_formats_eq_flatten (E : VRT.Expanders) (data : VRT.StreamData) :
    (VRT.extract_formats_and_subtitles E data).1
      = ((data.targetUrls.filter VRT.valid_target).map
          (VRT.target_formats E)).flatten := by
  simp only [VRT.extract_formats_and_subtitles]
  rw [foldl_classify_formats]
  simp

/-- Appending tracks to a language key extends exactly that key's entry. -/
theorem subLookup_subAppend (subs : Subtitles) (lang : String)
    (ts : List SubtitleTrack) :
    subLookup (subAppend subs lang ts) lang = subLookup subs lang ++ ts := by
  induction subs with
  | nil => simp [subAppend, subLookup]
  | cons p rest ih =>
      obtain ⟨l, ls⟩ := p
      by_cases h : l = lang
      · subst h; simp [subAppend, subLookup]
      · simp [subAppend, subLookup, h, ih]

/-- Folding the explicit-subtitle appends collects every track under `'nl'`,
after whatever the expansion merges put there. -/
theorem subLookup_nl_fold (xs : List VRT.SubtitleUrl) :
    ∀ subs : Subtitles,
      subLookup
        (xs.foldl (fun subs s => subAppend subs "nl" [{ url := s.url }]) subs) "nl"
        = subLookup subs "nl"
          ++ xs.map (fun s => ({ url := s.url } : SubtitleTrack)) := by
  induction xs with
  | nil => intro subs; simp
  | cons x xs ih =>
      intro subs
      simp only [List.foldl_cons, List.map_cons]
      rw [ih, subLookup_subAppend, List.append_assoc, List.singleton_append]

/-! ## C5 — geo-denial mapping (`IPrimaIE._raise_access_error`) -/

/-- C5: a media-API body with `errorCode = "PLAY_GEOIP_DENIED"` raises the
geo-restriction error naming the provider's configured country set `['CZ']`
(not the generic forbidden error); any other non-null `errorCode` raises the
generic forbidden error; a null/absent `errorCode` raises no access error. -/
theorem C5_geo_denial_mapping :
    IPrima.raise_access_error (some "PLAY_GEOIP_DENIED")
      = .geoRestricted ["CZ"]
    ∧ (∀ c : String, c ≠ "PLAY_GEOIP_DENIED" →
        IPrima.raise_access_error (some c) = .forbidden)
    ∧ IPrima.raise_access_error none = .ok := by
  refine ⟨rfl, fun c hc => ?_, rfl⟩
  simp [IPrima.raise_access_error, hc]

/-- Witness for C5 at concrete error codes. -/
theorem C5_geo_denial_mapping_witness :
    IPrima.raise_access_error (some "PLAY_GEOIP_DENIED")
      = .geoRestricted ["CZ"]
    ∧ IPrima.raise_access_error (some "PLAY_CONCURRENT_DEVICES") = .forbidden :=
  ⟨C5_geo_denial_mapping.1,
   C5_geo_denial_mapping.2.1 "PLAY_CONCURRENT_DEVICES" (by decide)⟩

/-! ## C8 — missing credentials fail before any network call (`IPrimaIE._login`) -/

/-- C8: on a provider that mandates login (`_LOGIN_REQUIRED = True`), a
missing username or password makes `_login` fail with the login-required
error immediately, with zero network calls performed. -/
theorem C8_login_required_before_network (env : IPrima.LoginEnv)
    (hcred : env.username = none ∨ env.password = none)
    (hreq : env.login_required = true) :
    IPrima.login env = (.loginRequired, 0) := by
  simp [IPrima.login, hcred, hreq]

/-- Witness for C8: no credentials configured, login mandated. -/
theorem C8_login_required_before_network_witness :
    IPrima.login
      { username := none, password := none, login_required := true,
        redirect_url := "https://auth.iprima.cz/sso/auth_check.html?code=abc",
        access_token_field := some "tok" }
      = (.loginRequired, 0) :=
  C8_login_required_before_network _ (Or.inl rfl) rfl

/-! ## C9 — Mojevideo always fails (`MojevideoIE._real_extract`) -/

/-- C9: whenever the three id patterns matched (their captured groups being
arbitrary strings), `MojevideoIE._real_extract` raises the extraction error
`'No videos found on webpage'` and never returns a media descriptor, because
the constructed video URL is unconditionally the empty string. -/
theorem C9_mojevideo_always_fails (url vId vEx vHashRaw : String) :
    Mojevideo.real_extract url vId vEx vHashRaw
      = .error "No videos found on webpage" := rfl

/-! ## C2 — login redirect-code exchange (`IPrimaIE._login`) -/

/-- C2 (code evaluated at the failing input): with credentials configured,
a login redirect URL that carries a query string but no `code` parameter
(the bad-credentials shape `...?error=access_denied`) makes `_login` escape
with an uncaught Python `KeyError` — `except (IndexError)` at iprima.py:48
does not catch the `KeyError` of `params['code']` — instead of the expected
user-facing auth-failure error; a redirect URL with no query string at all
does produce the expected auth-failure error, and both happen after exactly
the two login network calls, before the token request; a token response
lacking `access_token` fails with the expected token error after the third
call. -/
theorem C2_redirect_code_exchange_eval :
    IPrima.login
      { username := some "user@example.com", password := some "secret",
        login_required := true,
        redirect_url := "https://auth.iprima.cz/sso/auth_check.html?error=access_denied",
        access_token_field := some "tok" }
      = (.pythonError .keyError, 2)
    ∧ IPrima.login
      { username := some "user@example.com", password := some "secret",
        login_required := true,
        redirect_url := "https://auth.iprima.cz/sso/auth_check.html",
        access_token_field := some "tok" }
      = (.authFailed, 2)
    ∧ IPrima.login
      { username := some "user@example.com", password := some "secret",
        login_required := true,
        redirect_url := "https://auth.iprima.cz/sso/auth_check.html?code=abc",
        access_token_field := none }
      = (.tokenFailed, 3) := by
  refine ⟨?_, ?_, ?_⟩ <;> decide

/-! ## C10 — IPrimaCNN per-track extractor (`extract_formats`) -/

/-- C10 counterexample: a track with `format_key = 'dash'` but URL extension
`m3u8` — classified as DASH by the claim's own criterion — is taken by the
HLS branch first (`format_key == 'hls' or ext == 'm3u8'` is tested before the
DASH test) and contributes the HLS-expanded formats, contradicting
"contributes no formats at all". -/
theorem C10_dash_key_m3u8_ext_counterexample :
    IPrimaCNN.extract_formats
      (fun u => [{ format_id := "hls-720", url := u }]) (fun _ => [])
      "https://x/v.m3u8" (some "dash") none
      = [{ format_id := "hls-720", url := "https://x/v.m3u8" }] := by
  decide

/-- C10 (amended): a track that reaches the DASH branch — `format_key 'dash'`
or extension `mpd`, and not `format_key 'hls'` or extension `m3u8`, which the
source tests first — contributes no formats for every m3u8 and DASH expander
(the closure returns before the unreachable `_extract_mpd_formats` call);
a track on the HLS branch with a truthy `lang` contributes the m3u8-expanded
variants with `lang` attached to those lacking a truthy language, and every
variant that already has a truthy language passes through unchanged. -/
theorem C10_cnn_dash_tracks_dropped :
    (∀ (m3u8 mpd : String → List FormatVariant) (format_url : String)
        (format_key lang : Option String),
      (format_key = some "dash" ∨ determine_ext (some format_url) = "mpd") →
      ¬(format_key = some "hls" ∨ determine_ext (some format_url) = "m3u8") →
      IPrimaCNN.extract_formats m3u8 mpd format_url format_key lang = [])
    ∧ (∀ (m3u8 mpd : String → List FormatVariant) (format_url : String)
        (format_key : Option String) (l : String),
      (format_key = some "hls" ∨ determine_ext (some format_url) = "m3u8") →
      l ≠ "" →
      IPrimaCNN.extract_formats m3u8 mpd format_url format_key (some l)
        = (m3u8 format_url).map (fun f =>
            if f.language = none ∨ f.language = some "" then
              { f with language := some l }
            else f)
      ∧ ∀ f ∈ m3u8 format_url, f.language.getD "" ≠ "" →
          f ∈ IPrimaCNN.extract_formats m3u8 mpd format_url format_key (some l)) := by
  constructor
  · intro m3u8 mpd format_url format_key lang hdash hhls
    simp only [IPrimaCNN.extract_formats]
    rw [if_neg hhls, if_pos hdash]
  · intro m3u8 mpd format_url format_key l hhls hl
    have hmap : IPrimaCNN.extract_formats m3u8 mpd format_url format_key (some l)
        = (m3u8 format_url).map (fun f =>
            if f.language = none ∨ f.language = some "" then
              { f with language := some l }
            else f) := by
      simp only [IPrimaCNN.extract_formats]
      rw [if_pos hhls, Option.getD_some, if_pos hl]
    refine ⟨hmap, fun f hf hlang => ?_⟩
    rw [hmap]
    refine List.mem_map.mpr ⟨f, hf, ?_⟩
    have : ¬(f.language = none ∨ f.language = some "") := by
      rcases hfl : f.language with _ | s
      · rw [hfl] at hlang; simp at hlang
      · rw [hfl] at hlang
        simp only [Option.getD_some] at hlang
        simp [hlang]
    rw [if_neg this]

/-- Witness for C10 at a concrete DASH-branch track and a concrete HLS-branch
track with languages. -/
theorem C10_cnn_dash_tracks_dropped_witness :
    IPrimaCNN.extract_formats
      (fun u => [{ format_id := "hls-720", url := u },
                 { format_id := "hls-audio", url := u, language := some "cs" }])
      (fun _ => []) "https://x/v.mpd" (some "dash") (some "cs") = []
    ∧ IPrimaCNN.extract_formats
      (fun u => [{ format_id := "hls-720", url := u },
                 { format_id := "hls-audio", url := u, language := some "cs" }])
      (fun _ => []) "https://x/v.m3u8" none (some "cs")
      = [{ format_id := "hls-720", url := "https://x/v.m3u8", language := some "cs" },
         { format_id := "hls-audio", url := "https://x/v.m3u8", language := some "cs" }] := by
  constructor
  · exact C10_cnn_dash_tracks_dropped.1 _ _ _ _ _ (Or.inl rfl) (by decide)
  · rw [(C10_cnn_dash_tracks_dropped.2 _ _ _ none "cs" (Or.inr (by decide))
      (by decide)).1]
    decide

/-! ## C1 — manifest-classifier dispatch (`VRTBaseIE._extract_formats_and_subtitles`,
`IPrimaIE._real_extract`) -/

/-- Trivial expanders: every expansion returns nothing (the collaborator's
behaviour on a failed expansion). -/
def noExpand : VRT.Expanders :=
  { m3u8 := fun _ _ => ([], []), f4m := fun _ _ => [],
    mpd := fun _ _ => ([], []), ism := fun _ _ => ([], []) }

/-- C1 counterexample: for a descriptor with the unrecognized declared type
`"progressive"`, the single raw variant's `format_id` is the upper-cased
string `"PROGRESSIVE"` (the classifier upper-cases the type before every
comparison and tags with the result), not the original literal type string
`"progressive"` as the claim states. -/
theorem C1_raw_variant_format_id_counterexample :
    (VRT.extract_formats_and_subtitles noExpand
        { targetUrls := [{ type := "progressive", url := "https://x/v.mp4" }],
          subtitleUrls := [] }).1
      = [{ format_id := "PROGRESSIVE", url := "https://x/v.mp4" }]
    ∧ ("PROGRESSIVE" : String) ≠ "progressive" := by
  constructor <;> decide

/-- C1 (amended): in the VRT classifier, the formats are the concatenation of
per-descriptor contributions over the descriptors with a valid URL and truthy
type, and each contribution is a pure function of the upper-cased declared
type: `HLS`/`HLS_AES` dispatch to HLS expansion, `MPEG_DASH` to DASH
expansion, `HDS` to the legacy Adobe expansion, `HSS` to smooth-streaming
expansion, and any unrecognized type yields exactly one raw variant whose
`format_id` is the upper-cased type string. The IPrima classifier instead
uses type-or-extension and emits nothing for a descriptor whose type and
extension are both unrecognized. -/
theorem C1_manifest_classifier_dispatch :
    (∀ (E : VRT.Expanders) (data : VRT.StreamData),
      (VRT.extract_formats_and_subtitles E data).1
        = ((data.targetUrls.filter VRT.valid_target).map
            (VRT.target_formats E)).flatten)
    ∧ (∀ (E : VRT.Expanders) (t : VRT.TargetUrl),
        (pyUpper t.type = "HLS" ∨ pyUpper t.type = "HLS_AES" →
          VRT.target_formats E t = (E.m3u8 t.url (pyUpper t.type)).1)
        ∧ (pyUpper t.type = "MPEG_DASH" →
          VRT.target_formats E t = (E.mpd t.url "MPEG_DASH").1)
        ∧ (pyUpper t.type = "HDS" → VRT.target_formats E t = E.f4m t.url "HDS")
        ∧ (pyUpper t.type = "HSS" → VRT.target_formats E t = (E.ism t.url "mss").1)
        ∧ (pyUpper t.type ∉ (["HLS", "HLS_AES", "HDS", "MPEG_DASH", "HSS"] : List String) →
          VRT.target_formats E t = [{ format_id := pyUpper t.type, url := t.url }]))
    ∧ (∀ (m3u8 mpd : Option String → List FormatVariant) (s : IPrima.StreamInfo),
        s.type ≠ some "HLS" → s.type ≠ some "DASH" →
        determine_ext s.url ≠ "m3u8" → determine_ext s.url ≠ "mpd" →
        IPrima.stream_formats m3u8 mpd [s] = []) := by
  refine ⟨?_, ?_, ?_⟩
  · exact extract_formats_eq_flatten
  · intro E t
    refine ⟨fun h => ?_, fun h => ?_, fun h => ?_, fun h => ?_, fun h => ?_⟩
    · simp only [VRT.target_formats]
      rw [if_pos h]
    · simp [VRT.target_formats, h]
    · simp [VRT.target_formats, h]
    · simp [VRT.target_formats, h]
    · simp only [List.mem_cons, List.not_mem_nil, or_false, not_or] at h
      obtain ⟨h1, h2, h3, h4, h5⟩ := h
      simp only [VRT.target_formats]
      rw [if_neg (by tauto), if_neg h3, if_neg h4, if_neg h5]
  · intro m3u8 mpd s h1 h2 h3 h4
    simp only [IPrima.stream_formats, List.foldl_cons, List.foldl_nil]
    rw [if_neg (by tauto), if_neg (by tauto)]

/-- Witness for C1 at concrete descriptors: HLS dispatch for a lower-case
`hls_aes` type, the raw fallback for `progressive`, and the empty IPrima
contribution for an unrecognized descriptor. -/
theorem C1_manifest_classifier_dispatch_witness :
    VRT.target_formats noExpand { type := "hls_aes", url := "https://x/master.m3u8" } = []
    ∧ VRT.target_formats noExpand { type := "progressive", url := "https://x/v.mp4" }
      = [{ format_id := "PROGRESSIVE", url := "https://x/v.mp4" }]
    ∧ IPrima.stream_formats (fun _ => []) (fun _ => [])
        [{ type := some "progressive", url := some "https://x/v.mp4" }] = [] := by
  refine ⟨?_, ?_, ?_⟩
  · have h := (C1_manifest_classifier_dispatch.2.1 noExpand
      ⟨"hls_aes", "https://x/master.m3u8"⟩).1 (Or.inr (by decide))
    rw [h]
    rfl
  · have h := (C1_manifest_classifier_dispatch.2.1 noExpand
      ⟨"progressive", "https://x/v.mp4"⟩).2.2.2.2 (by decide)
    rw [h]
    decide
  · exact C1_manifest_classifier_dispatch.2.2 _ _
      ⟨some "progressive", some "https://x/v.mp4"⟩
      (by decide) (by decide) (by decide) (by decide)

/-! ## C6 — non-empty resolvable URLs (`VRTBaseIE._extract_formats_and_subtitles`) -/

/-- C6: provided the expansion collaborators only return variants with
non-empty URLs (the spec's collaborator contract: `returns empty on
failure`), every variant in the classifier's final format list has a
non-empty URL; and descriptors that fail the URL/type validity filter are
dropped: pre-filtering the descriptor list changes nothing. -/
theorem C6_format_urls_nonempty (E : VRT.Expanders) (data : VRT.StreamData)
    (hm3u8 : ∀ u i f, f ∈ (E.m3u8 u i).1 → f.url ≠ "")
    (hf4m : ∀ u i f, f ∈ E.f4m u i → f.url ≠ "")
    (hmpd : ∀ u i f, f ∈ (E.mpd u i).1 → f.url ≠ "")
    (hism : ∀ u i f, f ∈ (E.ism u i).1 → f.url ≠ "") :
    (∀ f ∈ (VRT.extract_formats_and_subtitles E data).1, f.url ≠ "")
    ∧ VRT.extract_formats_and_subtitles E
        { data with targetUrls := data.targetUrls.filter VRT.valid_target }
      = VRT.extract_formats_and_subtitles E data := by
  constructor
  · intro f hmem
    rw [extract_formats_eq_flatten E data] at hmem
    obtain ⟨l, hl, hfl⟩ := List.mem_flatten.mp hmem
    obtain ⟨t, ht, rfl⟩ := List.mem_map.mp hl
    have hv : VRT.valid_target t = true := List.of_mem_filter ht
    have hurl : (url_or_none t.url).isSome = true := by
      simp only [VRT.valid_target, Bool.and_eq_true] at hv
      exact hv.1
    revert hfl
    simp only [VRT.target_formats]
    split_ifs with h1 h2 h3 h4
    · exact fun hfl => hm3u8 _ _ f hfl
    · exact fun hfl => hf4m _ _ f hfl
    · exact fun hfl => hmpd _ _ f hfl
    · exact fun hfl => hism _ _ f hfl
    · intro hfl
      rw [List.mem_singleton] at hfl
      subst hfl
      exact url_or_none_ne_empty hurl
  · simp only [VRT.extract_formats_and_subtitles, List.filter_filter,
      Bool.and_self]

/-- Expanders for the C6 witness: fixed variants with non-empty URLs. -/
def c6E : VRT.Expanders :=
  { m3u8 := fun _ i => ([{ format_id := i, url := "https://cdn/v.m3u8" }],
                        [("en", [{ url := "https://cdn/s.vtt" }])]),
    f4m := fun _ i => [{ format_id := i, url := "https://cdn/v.f4m" }],
    mpd := fun _ i => ([{ format_id := i, url := "https://cdn/v.mpd" }], []),
    ism := fun _ i => ([{ format_id := i, url := "https://cdn/v.ism" }], []) }

/-- Stream data for the C6 witness: one valid HLS descriptor, one descriptor
with an empty type, one with an invalid (schemeless) URL, one raw. -/
def c6Data : VRT.StreamData :=
  { targetUrls := [{ type := "HLS", url := "https://x/master.m3u8" },
                   { type := "", url := "https://x/notype.mp4" },
                   { type := "PROGRESSIVE", url := "relative/path.mp4" },
                   { type := "PROGRESSIVE_DOWNLOAD", url := "https://x/v.mp4" }],
    subtitleUrls := [] }

/-- Witness for C6 at concrete expanders and data. -/
theorem C6_format_urls_nonempty_witness :
    ("" ∉ (VRT.extract_formats_and_subtitles c6E c6Data).1.map FormatVariant.url)
    ∧ VRT.extract_formats_and_subtitles c6E
        { c6Data with targetUrls := c6Data.targetUrls.filter VRT.valid_target }
      = VRT.extract_formats_and_subtitles c6E c6Data := by
  have h := C6_format_urls_nonempty c6E c6Data
    (fun u i f hmem => by
      simp only [c6E, List.mem_singleton] at hmem
      subst hmem; simp)
    (fun u i f hmem => by
      simp only [c6E, List.mem_singleton] at hmem
      subst hmem; simp)
    (fun u i f hmem => by
      simp only [c6E, List.mem_singleton] at hmem
      subst hmem; simp)
    (fun u i f hmem => by
      simp only [c6E, List.mem_singleton] at hmem
      subst hmem; simp)
  refine ⟨fun hmem => ?_, h.2⟩
  obtain ⟨f, hf, hfu⟩ := List.mem_map.mp hmem
  exact h.1 f hf hfu

/-! ## C7 — explicit subtitle tracks and the default language key
(`VRTBaseIE._extract_formats_and_subtitles`) -/

/-- C7 counterexample: an explicitly listed `CLOSED` subtitle track that
declares the language `fr` is nevertheless keyed under the default `'nl'`
(the code never reads a language field of `subtitleUrls`), and nothing is
keyed under `fr` — contradicting "a track that declares an explicit language
is keyed under that declared language". -/
theorem C7_declared_language_counterexample :
    (VRT.extract_formats_and_subtitles noExpand
        { targetUrls := [],
          subtitleUrls := [{ url := "https://s/x.vtt", type := "CLOSED",
                             language := some "fr" }] }).2
      = [("nl", [{ url := "https://s/x.vtt" }])]
    ∧ subLookup (VRT.extract_formats_and_subtitles noExpand
        { targetUrls := [],
          subtitleUrls := [{ url := "https://s/x.vtt", type := "CLOSED",
                             language := some "fr" }] }).2 "fr"
      = [] := by
  constructor <;> decide

/-- C7 (amended): every explicitly listed subtitle track with a truthy URL
and type `CLOSED` is keyed under the provider's default language key `'nl'`,
regardless of any language the track declares. -/
theorem C7_explicit_subtitles_keyed_nl (E : VRT.Expanders)
    (data : VRT.StreamData) (s : VRT.SubtitleUrl)
    (hmem : s ∈ data.subtitleUrls) (hurl : s.url ≠ "") (htype : s.type = "CLOSED") :
    ({ url := s.url } : SubtitleTrack)
      ∈ subLookup (VRT.extract_formats_and_subtitles E data).2 "nl" := by
  simp only [VRT.extract_formats_and_subtitles]
  rw [subLookup_nl_fold]
  refine List.mem_append.mpr (Or.inr ?_)
  refine List.mem_map.mpr ⟨s, ?_, rfl⟩
  exact List.mem_filter.mpr ⟨hmem, by simp [hurl, htype]⟩

/-- Witness for C7 at a concrete track without a declared language. -/
theorem C7_explicit_subtitles_keyed_nl_witness :
    ({ url := "https://s/x.vtt" } : SubtitleTrack)
      ∈ subLookup (VRT.extract_formats_and_subtitles noExpand
          { targetUrls := [],
            subtitleUrls := [{ url := "https://s/x.vtt", type := "CLOSED",
                               language := none }] }).2 "nl" :=
  C7_explicit_subtitles_keyed_nl noExpand _ _
    (List.mem_singleton.mpr rfl) (by decide) rfl

/-! ## C3 — per-item failures and the enclosing walk
(`Radio1BeIE._extract_video_entries`, `VideoKenBaseIE._extract_videos`) -/

/-- Resolver for the C3 scenario: one media reference fails with the
malformed-response error, all others resolve. -/
def c3Resolve : String → Except Radio1.ItemError String :=
  fun r => if r = "ref-bad" then .error .malformedResponse else .ok r

/-- C3 counterexample: in the Radio1Be playlist walk, an item whose
resolution raises a fatal-for-the-item error aborts the enclosing walk: the
error propagates out of the generator and the remaining item `ref-c` is
never yielded — contradicting "the walker catches the per-item failure,
reports it, and proceeds to yield the remaining items". -/
theorem C3_walker_aborts_counterexample :
    Radio1.extract_video_entries c3Resolve ["ref-a", "ref-bad", "ref-c"]
      = (["ref-a"], some .malformedResponse)
    ∧ (Radio1.extract_video_entries c3Resolve
        ["ref-a", "ref-bad", "ref-c"]).1.contains "ref-c" = false := by
  constructor <;> decide

/-- Unfolding equation of one iteration of the Radio1Be walk. -/
theorem extract_video_entries_cons {α : Type}
    (resolve : String → Except Radio1.ItemError α) (r : String)
    (rest : List String) :
    Radio1.extract_video_entries resolve (r :: rest) =
      match resolve r with
      | .error e => ([], some e)
      | .ok entry =>
          let t := Radio1.extract_video_entries resolve rest
          (entry :: t.1, t.2) := rfl

/-- C3 (amended): the Radio1Be walker does not catch per-item resolution
failures — the first failing item's error propagates, the walk yields exactly
the successfully resolved items before it and the remaining items are
dropped. The VideoKen category walker's items are delegation references; an
item with a missing id is skipped and the walk proceeds to the remaining
items. -/
theorem C3_walker_error_propagation (α : Type) :
    (∀ (resolve : String → Except Radio1.ItemError α) (pre suf : List String)
        (r : String) (e : Radio1.ItemError),
      (∀ p ∈ pre, (resolve p).isOk = true) →
      resolve r = .error e →
      Radio1.extract_video_entries resolve (pre ++ r :: suf)
        = (pre.filterMap (fun p => (resolve p).toOption), some e))
    ∧ (∀ (videos₁ videos₂ : List VideoKen.Video) (v : VideoKen.Video) (url : String),
        v.youtube_id.getD "" = "" →
        VideoKen.extract_videos (videos₁ ++ v :: videos₂) url
          = VideoKen.extract_videos videos₁ url
            ++ VideoKen.extract_videos videos₂ url) := by
  constructor
  · intro resolve pre suf r e hok herr
    induction pre with
    | nil =>
        simp only [List.nil_append, List.filterMap_nil]
        simp [Radio1.extract_video_entries, herr]
    | cons p pre ih =>
        have hp : (resolve p).isOk = true := hok p (List.mem_cons_self p pre)
        obtain ⟨a, ha⟩ : ∃ a, resolve p = .ok a := by
          cases hres : resolve p
          · rw [hres] at hp; simp [Except.isOk, Except.toBool] at hp
          · exact ⟨_, rfl⟩
        have ih' := ih (fun q hq => hok q (List.mem_cons_of_mem p hq))
        rw [List.cons_append, extract_video_entries_cons, ha, ih']
        simp [List.filterMap_cons, ha, Except.toOption]
  · intro videos₁ videos₂ v url h
    have hnone : VideoKen.video_entry v url = none := by
      simp [VideoKen.video_entry, h]
    simp only [VideoKen.extract_videos, List.filterMap_append,
      List.filterMap_cons, hnone]

/-- Witness for C3 at a concrete failing walk and a concrete skipped item. -/
theorem C3_walker_error_propagation_witness :
    Radio1.extract_video_entries c3Resolve (["ref-a"] ++ "ref-bad" :: ["ref-c"])
      = (["ref-a"].filterMap (fun p => (c3Resolve p).toOption),
         some .malformedResponse)
    ∧ VideoKen.extract_videos
        ([{ youtube_id := some "yt1", type := some "youtube" }]
          ++ { youtube_id := none, type := none, embed_url := some "https://e/x" }
            :: [{ youtube_id := some "yt2", type := some "youtube" }])
        "https://videos.cncf.io/category/1/"
      = VideoKen.extract_videos
          [{ youtube_id := some "yt1", type := some "youtube" }]
          "https://videos.cncf.io/category/1/"
        ++ VideoKen.extract_videos
          [{ youtube_id := some "yt2", type := some "youtube" }]
          "https://videos.cncf.io/category/1/" := by
  constructor
  · exact (C3_walker_error_propagation String).1 c3Resolve ["ref-a"] ["ref-c"]
      "ref-bad" .malformedResponse
      (fun p hp => by rw [List.mem_singleton] at hp; subst hp; decide)
      rfl
  · exact (C3_walker_error_propagation String).2 _ _ _ _ rfl

/-! ## C4 — pagination termination (`VideoKenCategoryIE._entries`) -/

/-- Unfolding equation of one loop iteration of the category walker. -/
theorem category_entries_succ (fetch : Nat → VideoKen.ListingPage)
    (url : String) (f page : Nat) :
    VideoKen.category_entries fetch url (f + 1) page =
      match (fetch page).is_last_page with
      | none => ([], 1)
      | some last =>
          if last then (VideoKen.extract_videos (fetch page).videos url, 1)
          else
            let r := VideoKen.category_entries fetch url f (page + 1)
            (VideoKen.extract_videos (fetch page).videos url ++ r.1, r.2 + 1) := rfl

/-- Peeling the first index off a flattened map over an index range. -/
theorem flatten_range_succ {β : Type} (g : Nat → List β) (k : Nat) :
    ((List.range (k + 1)).map g).flatten
      = g 0 ++ ((List.range k).map (fun i => g (i + 1))).flatten := by
  rw [List.range_succ_eq_map]
  simp only [List.map_cons, List.map_map, List.flatten_cons]
  congr 1

/-- Run of the category walker: when pages `start..start+k-1` carry
`is_last_page = false` and page `start+k` carries `is_last_page = true`, the
walk yields the items of pages `start..start+k` in order and performs exactly
`k + 1` page fetches. -/
theorem category_entries_run (fetch : Nat → VideoKen.ListingPage) (url : String) :
    ∀ (k start fuel : Nat),
      (∀ j, j < k → (fetch (start + j)).is_last_page = some false) →
      (fetch (start + k)).is_last_page = some true →
      k < fuel →
      VideoKen.category_entries fetch url fuel start =
        (((List.range (k + 1)).map
            (fun i => VideoKen.extract_videos (fetch (start + i)).videos url)).flatten,
         k + 1) := by
  intro k
  induction k with
  | zero =>
      intro start fuel _ hlast hfuel
      obtain ⟨f, rfl⟩ : ∃ f, fuel = f + 1 := ⟨fuel - 1, by omega⟩
      rw [Nat.add_zero] at hlast
      rw [category_entries_succ, hlast]
      simp [show List.range 1 = [0] from rfl]
  | succ k ih =>
      intro start fuel hfalse hlast hfuel
      obtain ⟨f, rfl⟩ : ∃ f, fuel = f + 1 := ⟨fuel - 1, by omega⟩
      have h0 : (fetch start).is_last_page = some false := by
        have h := hfalse 0 (Nat.succ_pos k)
        rwa [Nat.add_zero] at h
      have ihr := ih (start + 1) f
        (fun j hj => by
          have h := hfalse (j + 1) (by omega)
          rwa [show start + (j + 1) = start + 1 + j from by omega] at h)
        (by rw [show start + 1 + k = start + (k + 1) from by omega]; exact hlast)
        (by omega)
      rw [category_entries_succ, h0]
      simp only [Bool.false_eq_true, if_false, ihr]
      refine Prod.ext ?_ rfl
      rw [flatten_range_succ
        (fun i => VideoKen.extract_videos (fetch (start + i)).videos url) (k + 1)]
      simp only [Nat.add_zero]
      congr 1
      refine congrArg List.flatten (List.map_congr_left fun i _ => ?_)
      rw [show start + 1 + i = start + (i + 1) from by omega]

/-- C4: for a sequence of listing pages each carrying the `is_last_page`
boolean, where page `k` (1-based) is the first whose response sets
`is_last_page = true`, the category walker yields exactly the items of pages
`1..k` and performs exactly `k` page fetches (never fetching page `k+1`);
and when the very first page response carries no end-of-data signal, the
walker yields zero items and terminates without error after that single
fetch. -/
theorem C4_pagination_termination :
    (∀ (fetch : Nat → VideoKen.ListingPage) (url : String) (k fuel : Nat),
      0 < k → k ≤ fuel →
      (∀ j, 1 ≤ j → j < k → (fetch j).is_last_page = some false) →
      (fetch k).is_last_page = some true →
      VideoKen.category_entries fetch url fuel 1 =
        (((List.range k).map
            (fun i => VideoKen.extract_videos (fetch (1 + i)).videos url)).flatten,
         k))
    ∧ (∀ (fetch : Nat → VideoKen.ListingPage) (url : String) (fuel : Nat),
        0 < fuel → (fetch 1).is_last_page = none →
        VideoKen.category_entries fetch url fuel 1 = ([], 1)) := by
  constructor
  · intro fetch url k fuel hk hfuel hfalse hlast
    obtain ⟨k', rfl⟩ : ∃ k', k = k' + 1 := ⟨k - 1, by omega⟩
    exact category_entries_run fetch url k' 1 fuel
      (fun j hj => hfalse (1 + j) (by omega) (by omega))
      (by rw [show 1 + k' = k' + 1 from by omega]; exact hlast)
      (by omega)
  · intro fetch url fuel hf hnone
    obtain ⟨f, rfl⟩ : ∃ f, fuel = f + 1 := ⟨fuel - 1, by omega⟩
    rw [category_entries_succ, hnone]

/-- Page sequence for the C4 witness: page 1 is not last and carries one
item, every later page is last and carries one item. -/
def c4Fetch : Nat → VideoKen.ListingPage := fun n =>
  if n = 1 then { is_last_page := some false,
                  videos := [{ youtube_id := some "ytA", type := some "youtube" }] }
  else { is_last_page := some true,
         videos := [{ youtube_id := some "ytB", type := some "youtube" }] }

/-- Witness for C4: two pages, the second last, yields both items with two
fetches; a first page without the signal yields nothing with one fetch. -/
theorem C4_pagination_termination_witness :
    VideoKen.category_entries c4Fetch "https://videos.neurips.cc/category/350/" 5 1
      = ([{ url := "ytA", ie_key := some "Youtube", video_id := "ytA" },
          { url := "ytB", ie_key := some "Youtube", video_id := "ytB" }], 2)
    ∧ VideoKen.category_entries (fun _ => { is_last_page := none, videos := [] })
        "https://videos.neurips.cc/category/350/" 5 1 = ([], 1) := by
  constructor
  · have h := C4_pagination_termination.1 c4Fetch
      "https://videos.neurips.cc/category/350/" 2 5 (by decide) (by decide)
      (fun j h1 h2 => by
        have hj : j = 1 := by omega
        subst hj
        decide)
      (by decide)
    rw [h]
    decide
  · exact C4_pagination_termination.2 _ _ 5 (by decide) rfl

